import Mathlib

/-!
Shallow embedding of the LibDS `Protocol` base class
(src/lib/LibDS/src/Core/Protocol.h) and the collaborator state it touches.

The C++ class keeps eight `int` packet counters (modelled as `Int`,
ignoring machine overflow), delegates packet encoding/decoding to virtual
functions that a protocol variant overrides (modelled as a `Variant`
record of functions, with `baseVariant` holding the base-class default
bodies), and reports comms status changes to the external `DS_Config`
singleton (its per-peer comms-status fields are inlined into the state;
`DS_Config` itself is not under src/, so its interface is modelled from
the spec where noted).
-/

namespace LibDS

/-- Comms status values of the DS, as used by Protocol.h
(DS::kCommsWorking is the only value the Protocol writes). -/
inductive CommStatus where
  | kCommsFailing
  | kCommsWorking
deriving DecidableEq

/-- Socket types of the DS (DS::kSocketTypeUDP, DS::kSocketTypeTCP). -/
inductive SocketType where
  | kSocketTypeUDP
  | kSocketTypeTCP
deriving DecidableEq

/-- A QByteArray, one natural number per byte. -/
abbrev Bytes := List Nat

/-- Modelled from the spec: the disabled-port sentinel `DS_DISABLED_PORT`
(defined in a header outside src/; the spec only says it is a sentinel
meaning "do not open a socket", so its concrete value is irrelevant to
every claim below, which only compare ports against it). -/
def DS_DISABLED_PORT : Int := 0

/-- The mutable state a `Protocol` instance can reach: its eight private
counters (Protocol.h lines 536-544) together with the per-peer comms
status owned by the `DS_Config` collaborator, which `read*Packet`
updates via `config()->update*CommStatus`. -/
structure ProtocolState where
  m_sentFmsPackets : Int
  m_sentRadioPackets : Int
  m_sentRobotPackets : Int
  m_receivedFmsPackets : Int
  m_receivedRadioPackets : Int
  m_receivedRobotPackets : Int
  m_recvRobotPacketsSinceConnect : Int
  m_sentRobotPacketsSinceConnect : Int
  fmsCommStatus : CommStatus
  radioCommStatus : CommStatus
  robotCommStatus : CommStatus
deriving DecidableEq

/-- The virtual hooks a protocol variant overrides: the three packet
decoders `interpret*Packet` and the three packet encoders `get*Packet`
(the encoders read only collaborator data that the claims never vary,
so they are modelled as constant byte sequences). -/
structure Variant where
  interpretFMSPacket : Bytes → Bool
  interpretRadioPacket : Bytes → Bool
  interpretRobotPacket : Bytes → Bool
  getFMSPacket : Bytes
  getRadioPacket : Bytes
  getRobotPacket : Bytes

/-- The base-class default bodies: every decoder returns false
(Protocol.h lines 512-533) and every encoder returns an empty packet
(Protocol.h lines 484-506). -/
def baseVariant : Variant where
  interpretFMSPacket := fun _ => false
  interpretRadioPacket := fun _ => false
  interpretRobotPacket := fun _ => false
  getFMSPacket := []
  getRadioPacket := []
  getRobotPacket := []

/-- A variant whose decoders accept every byte sequence, used to
exercise the success paths of the read wrappers. -/
def acceptAll : Variant where
  interpretFMSPacket := fun _ => true
  interpretRadioPacket := fun _ => true
  interpretRobotPacket := fun _ => true
  getFMSPacket := []
  getRadioPacket := []
  getRobotPacket := []

/-- Modelled from the spec: `DS_Config::isConnectedToRobot` (DS_Config is
not under src/). Per the spec the robot is "marked connected" exactly
when its comms status is Working. -/
def isConnectedToRobot (s : ProtocolState) : Bool :=
  s.robotCommStatus == CommStatus.kCommsWorking

/-- The `Protocol()` constructor (lines 24-34): zeroes all eight
counters. The comms-status fields belong to the external `DS_Config`,
which the constructor does not touch, so they are parameters. -/
def mkProtocol (f r rb : CommStatus) : ProtocolState where
  m_sentFmsPackets := 0
  m_sentRadioPackets := 0
  m_sentRobotPackets := 0
  m_receivedFmsPackets := 0
  m_receivedRadioPackets := 0
  m_receivedRobotPackets := 0
  m_recvRobotPacketsSinceConnect := 0
  m_sentRobotPacketsSinceConnect := 0
  fmsCommStatus := f
  radioCommStatus := r
  robotCommStatus := rb

/-- `Protocol::generateFMSPacket` (lines 316-319): increments
`m_sentFmsPackets`, then returns `getFMSPacket()`. -/
def generateFMSPacket (v : Variant) (s : ProtocolState) : Bytes × ProtocolState :=
  (v.getFMSPacket, { s with m_sentFmsPackets := s.m_sentFmsPackets + 1 })

/-- `Protocol::generateRadioPacket` (lines 325-328): increments
`m_sentRadioPackets`, then returns `getRadioPacket()`. -/
def generateRadioPacket (v : Variant) (s : ProtocolState) : Bytes × ProtocolState :=
  (v.getRadioPacket, { s with m_sentRadioPackets := s.m_sentRadioPackets + 1 })

/-- `Protocol::generateRobotPacket` (lines 334-339): increments
`m_sentRobotPackets` and `m_sentRobotPacketsSinceConnect`, then returns
`getRobotPacket()`. -/
def generateRobotPacket (v : Variant) (s : ProtocolState) : Bytes × ProtocolState :=
  (v.getRobotPacket,
   { s with
     m_sentRobotPackets := s.m_sentRobotPackets + 1
     m_sentRobotPacketsSinceConnect := s.m_sentRobotPacketsSinceConnect + 1 })

/-- `Protocol::resetLossCounter` (lines 394-397): zeroes the two
since-connect counters. -/
def resetLossCounter (s : ProtocolState) : ProtocolState :=
  { s with
    m_recvRobotPacketsSinceConnect := 0
    m_sentRobotPacketsSinceConnect := 0 }

/-- `Protocol::readFMSPacket` (lines 345-354): increments
`m_receivedFmsPackets`; if `interpretFMSPacket(data)` succeeds, marks
the FMS comms Working and returns true, else returns false. -/
def readFMSPacket (v : Variant) (s : ProtocolState) (data : Bytes) :
    Bool × ProtocolState :=
  let s1 := { s with m_receivedFmsPackets := s.m_receivedFmsPackets + 1 }
  if v.interpretFMSPacket data then
    (true, { s1 with fmsCommStatus := CommStatus.kCommsWorking })
  else
    (false, s1)

/-- `Protocol::readRadioPacket` (lines 360-369): increments
`m_receivedRadioPackets`; if `interpretRadioPacket(data)` succeeds,
marks the radio comms Working and returns true, else returns false. -/
def readRadioPacket (v : Variant) (s : ProtocolState) (data : Bytes) :
    Bool × ProtocolState :=
  let s1 := { s with m_receivedRadioPackets := s.m_receivedRadioPackets + 1 }
  if v.interpretRadioPacket data then
    (true, { s1 with radioCommStatus := CommStatus.kCommsWorking })
  else
    (false, s1)

/-- `Protocol::readRobotPacket` (lines 375-388): increments
`m_receivedRobotPackets` and `m_recvRobotPacketsSinceConnect`; if
`interpretRobotPacket(data)` succeeds, calls `resetLossCounter()` when
the robot was not connected, marks the robot comms Working and returns
true, else returns false. -/
def readRobotPacket (v : Variant) (s : ProtocolState) (data : Bytes) :
    Bool × ProtocolState :=
  let s1 := { s with
              m_receivedRobotPackets := s.m_receivedRobotPackets + 1
              m_recvRobotPacketsSinceConnect :=
                s.m_recvRobotPacketsSinceConnect + 1 }
  if v.interpretRobotPacket data then
    let s2 := if isConnectedToRobot s1 then s1 else resetLossCounter s1
    (true, { s2 with robotCommStatus := CommStatus.kCommsWorking })
  else
    (false, s1)

/-- `Protocol::sentFMSPackets` (lines 402-404). -/
def sentFMSPackets (s : ProtocolState) : Int := s.m_sentFmsPackets

/-- `Protocol::sentRadioPackets` (lines 409-411). -/
def sentRadioPackets (s : ProtocolState) : Int := s.m_sentRadioPackets

/-- `Protocol::sentRobotPackets` (lines 416-418). -/
def sentRobotPackets (s : ProtocolState) : Int := s.m_sentRobotPackets

/-- `Protocol::receivedFMSPackets` (lines 423-425): the C++ body returns
`m_receivedRobotPackets`, not `m_receivedFmsPackets`. -/
def receivedFMSPackets (s : ProtocolState) : Int := s.m_receivedRobotPackets

/-- `Protocol::receivedRadioPackets` (lines 430-432): the C++ body
returns `m_receivedRobotPackets`, not `m_receivedRadioPackets`. -/
def receivedRadioPackets (s : ProtocolState) : Int := s.m_receivedRobotPackets

/-- `Protocol::receivedRobotPackets` (lines 437-439). -/
def receivedRobotPackets (s : ProtocolState) : Int := s.m_receivedRobotPackets

/-- `Protocol::recvRobotPacketsSinceConnect` (lines 448-450). -/
def recvRobotPacketsSinceConnect (s : ProtocolState) : Int :=
  s.m_recvRobotPacketsSinceConnect

/-- `Protocol::sentRobotPacketsSinceConnect` (lines 459-461). -/
def sentRobotPacketsSinceConnect (s : ProtocolState) : Int :=
  s.m_sentRobotPacketsSinceConnect

/-- `Protocol::fmsFrequency` default body (lines 53-55). -/
def fmsFrequency : Int := 1

/-- `Protocol::radioFrequency` default body (lines 65-67). -/
def radioFrequency : Int := 1

/-- `Protocol::robotFrequency` default body (lines 77-79). -/
def robotFrequency : Int := 1

/-- `Protocol::fmsInputPort` default body (lines 115-117). -/
def fmsInputPort : Int := DS_DISABLED_PORT

/-- `Protocol::fmsOutputPort` default body (lines 125-127). -/
def fmsOutputPort : Int := DS_DISABLED_PORT

/-- `Protocol::radioInputPort` default body (lines 135-137). -/
def radioInputPort : Int := DS_DISABLED_PORT

/-- `Protocol::robotInputPort` default body (lines 145-147). -/
def robotInputPort : Int := DS_DISABLED_PORT

/-- `Protocol::radioOutputPort` default body (lines 155-157). -/
def radioOutputPort : Int := DS_DISABLED_PORT

/-- `Protocol::robotOutputPort` default body (lines 165-167). -/
def robotOutputPort : Int := DS_DISABLED_PORT

/-- `Protocol::fmsSocketType` default body (lines 244-246). -/
def fmsSocketType : SocketType := SocketType.kSocketTypeUDP

/-- `Protocol::radioSocketType` default body (lines 257-259). -/
def radioSocketType : SocketType := SocketType.kSocketTypeUDP

/-- `Protocol::robotSocketType` default body (lines 270-272). -/
def robotSocketType : SocketType := SocketType.kSocketTypeUDP

/-- `Protocol::fmsAddress` default body (lines 282-284). -/
def fmsAddress : String := ""

/-- One public mutating call on a `Protocol` instance. -/
inductive Op where
  | genFMS
  | genRadio
  | genRobot
  | readFMS (data : Bytes)
  | readRadio (data : Bytes)
  | readRobot (data : Bytes)
  | reset

/-- The state after one public call (the returned packet or success
flag is discarded). -/
def applyOp (v : Variant) (s : ProtocolState) : Op → ProtocolState
  | Op.genFMS => (generateFMSPacket v s).2
  | Op.genRadio => (generateRadioPacket v s).2
  | Op.genRobot => (generateRobotPacket v s).2
  | Op.readFMS d => (readFMSPacket v s d).2
  | Op.readRadio d => (readRadioPacket v s d).2
  | Op.readRobot d => (readRobotPacket v s d).2
  | Op.reset => resetLossCounter s

/-- The state after a finite sequence of public calls. -/
def runOps (v : Variant) (s : ProtocolState) (ops : List Op) : ProtocolState :=
  ops.foldl (applyOp v) s

/-- The three robot-peer calls of claim C3. -/
inductive RobotOp where
  | gen
  | read (data : Bytes)
  | reset

/-- View a robot-peer call as a general call. -/
def RobotOp.toOp : RobotOp → Op
  | RobotOp.gen => Op.genRobot
  | RobotOp.read d => Op.readRobot d
  | RobotOp.reset => Op.reset

/-- Counter invariant maintained by every public call: all eight
counters are nonnegative and each since-connect counter is bounded by
its session counter. -/
def CounterInv (s : ProtocolState) : Prop :=
  0 ≤ s.m_sentFmsPackets ∧
  0 ≤ s.m_sentRadioPackets ∧
  0 ≤ s.m_sentRobotPackets ∧
  0 ≤ s.m_receivedFmsPackets ∧
  0 ≤ s.m_receivedRadioPackets ∧
  0 ≤ s.m_receivedRobotPackets ∧
  0 ≤ s.m_recvRobotPacketsSinceConnect ∧
  0 ≤ s.m_sentRobotPacketsSinceConnect ∧
  s.m_sentRobotPacketsSinceConnect ≤ s.m_sentRobotPackets ∧
  s.m_recvRobotPacketsSinceConnect ≤ s.m_receivedRobotPackets

theorem counterInv_mk (f r rb : CommStatus) : CounterInv (mkProtocol f r rb) := by
  simp [CounterInv, mkProtocol]

theorem counterInv_applyOp (v : Variant) (s : ProtocolState) (op : Op)
    (h : CounterInv s) : CounterInv (applyOp v s op) := by
  cases op <;>
    simp only [CounterInv, applyOp, generateFMSPacket, generateRadioPacket,
      generateRobotPacket, readFMSPacket, readRadioPacket, readRobotPacket,
      resetLossCounter] at h ⊢ <;>
    first
    | omega
    | (split <;>
       first
       | omega
       | (split <;> simp_all <;> omega)
       | simp_all <;> omega)

theorem counterInv_runOps (v : Variant) (s : ProtocolState) (ops : List Op)
    (h : CounterInv s) : CounterInv (runOps v s ops) := by
  induction ops generalizing s with
  | nil => exact h
  | cons op rest ih =>
      exact ih (applyOp v s op) (counterInv_applyOp v s op h)

/-- The state with all counters zero and all three peers marked Failing,
used as a concrete post-construction state. -/
def initAllFailing : ProtocolState :=
  mkProtocol CommStatus.kCommsFailing CommStatus.kCommsFailing
    CommStatus.kCommsFailing

theorem readFMSPacket_recv_count (v : Variant) (s : ProtocolState) (d : Bytes) :
    ((readFMSPacket v s d).2).m_receivedFmsPackets =
      s.m_receivedFmsPackets + 1 := by
  simp only [readFMSPacket]
  split <;> rfl

theorem readRadioPacket_recv_count (v : Variant) (s : ProtocolState) (d : Bytes) :
    ((readRadioPacket v s d).2).m_receivedRadioPackets =
      s.m_receivedRadioPackets + 1 := by
  simp only [readRadioPacket]
  split <;> rfl

theorem readRobotPacket_recv_count (v : Variant) (s : ProtocolState) (d : Bytes) :
    ((readRobotPacket v s d).2).m_receivedRobotPackets =
      s.m_receivedRobotPackets + 1 := by
  simp only [readRobotPacket]
  split
  · split <;> rfl
  · rfl

theorem runOps_replicate_genFMS (v : Variant) (n : Nat) (s : ProtocolState) :
    (runOps v s (List.replicate n Op.genFMS)).m_sentFmsPackets =
      s.m_sentFmsPackets + n := by
  induction n generalizing s with
  | zero => simp [runOps]
  | succ n ih =>
      rw [List.replicate_succ]
      show (runOps v (applyOp v s Op.genFMS)
              (List.replicate n Op.genFMS)).m_sentFmsPackets = _
      rw [ih]
      simp [applyOp, generateFMSPacket]
      ring

theorem runOps_replicate_genRadio (v : Variant) (n : Nat) (s : ProtocolState) :
    (runOps v s (List.replicate n Op.genRadio)).m_sentRadioPackets =
      s.m_sentRadioPackets + n := by
  induction n generalizing s with
  | zero => simp [runOps]
  | succ n ih =>
      rw [List.replicate_succ]
      show (runOps v (applyOp v s Op.genRadio)
              (List.replicate n Op.genRadio)).m_sentRadioPackets = _
      rw [ih]
      simp [applyOp, generateRadioPacket]
      ring

theorem runOps_replicate_genRobot (v : Variant) (n : Nat) (s : ProtocolState) :
    (runOps v s (List.replicate n Op.genRobot)).m_sentRobotPackets =
      s.m_sentRobotPackets + n := by
  induction n generalizing s with
  | zero => simp [runOps]
  | succ n ih =>
      rw [List.replicate_succ]
      show (runOps v (applyOp v s Op.genRobot)
              (List.replicate n Op.genRobot)).m_sentRobotPackets = _
      rw [ih]
      simp [applyOp, generateRobotPacket]
      ring

theorem runOps_map_readFMS (v : Variant) (ds : List Bytes) (s : ProtocolState) :
    (runOps v s (ds.map Op.readFMS)).m_receivedFmsPackets =
      s.m_receivedFmsPackets + ds.length := by
  induction ds generalizing s with
  | nil => simp [runOps]
  | cons d rest ih =>
      show (runOps v (applyOp v s (Op.readFMS d))
              (rest.map Op.readFMS)).m_receivedFmsPackets = _
      rw [ih]
      simp only [applyOp, readFMSPacket_recv_count, List.length_cons]
      push_cast
      ring

theorem runOps_map_readRadio (v : Variant) (ds : List Bytes) (s : ProtocolState) :
    (runOps v s (ds.map Op.readRadio)).m_receivedRadioPackets =
      s.m_receivedRadioPackets + ds.length := by
  induction ds generalizing s with
  | nil => simp [runOps]
  | cons d rest ih =>
      show (runOps v (applyOp v s (Op.readRadio d))
              (rest.map Op.readRadio)).m_receivedRadioPackets = _
      rw [ih]
      simp only [applyOp, readRadioPacket_recv_count, List.length_cons]
      push_cast
      ring

theorem runOps_map_readRobot (v : Variant) (ds : List Bytes) (s : ProtocolState) :
    (runOps v s (ds.map Op.readRobot)).m_receivedRobotPackets =
      s.m_receivedRobotPackets + ds.length := by
  induction ds generalizing s with
  | nil => simp [runOps]
  | cons d rest ih =>
      show (runOps v (applyOp v s (Op.readRobot d))
              (rest.map Op.readRobot)).m_receivedRobotPackets = _
      rw [ih]
      simp only [applyOp, readRobotPacket_recv_count, List.length_cons]
      push_cast
      ring

theorem sessionCounters_mono (v : Variant) (s : ProtocolState) (op : Op) :
    s.m_sentFmsPackets ≤ (applyOp v s op).m_sentFmsPackets ∧
    s.m_sentRadioPackets ≤ (applyOp v s op).m_sentRadioPackets ∧
    s.m_sentRobotPackets ≤ (applyOp v s op).m_sentRobotPackets ∧
    s.m_receivedFmsPackets ≤ (applyOp v s op).m_receivedFmsPackets ∧
    s.m_receivedRadioPackets ≤ (applyOp v s op).m_receivedRadioPackets ∧
    s.m_receivedRobotPackets ≤ (applyOp v s op).m_receivedRobotPackets := by
  cases op <;>
    simp only [applyOp, generateFMSPacket, generateRadioPacket,
      generateRobotPacket, readFMSPacket, readRadioPacket, readRobotPacket,
      resetLossCounter] <;>
    (try split) <;>
    (try split) <;>
    simp

/-- Claim C1 (as stated) is false on the code: from a state where the
robot peer is marked disconnected, a readRobotPacket call whose bytes
the decoder accepts leaves recvRobotSinceConnect at 0, not 1, because
the code increments the counter first and resets the pair afterwards. -/
theorem C1_counterexample :
    isConnectedToRobot initAllFailing = false ∧
    acceptAll.interpretRobotPacket [] = true ∧
    recvRobotPacketsSinceConnect
      ((readRobotPacket acceptAll initAllFailing []).2) ≠ 1 := by
  decide

/-- Claim C1 (amended): in every state in which the robot peer is marked
disconnected, a readRobotPacket call with bytes the variant decoder
accepts returns true and leaves the since-connect pair at (0,0): the
packet is counted first and the pair is reset afterwards, so
recvRobotSinceConnect equals 0 (not 1) immediately after the call. -/
theorem C1_reconnect_resets_pair (v : Variant) (s : ProtocolState)
    (data : Bytes) (hconn : isConnectedToRobot s = false)
    (hacc : v.interpretRobotPacket data = true) :
    (readRobotPacket v s data).1 = true ∧
    recvRobotPacketsSinceConnect ((readRobotPacket v s data).2) = 0 ∧
    sentRobotPacketsSinceConnect ((readRobotPacket v s data).2) = 0 := by
  simp only [isConnectedToRobot] at hconn
  simp [readRobotPacket, hacc, isConnectedToRobot, hconn, resetLossCounter,
    recvRobotPacketsSinceConnect, sentRobotPacketsSinceConnect]

/-- Witness for C1_reconnect_resets_pair at a concrete disconnected
state and an accepting decoder. -/
theorem C1_reconnect_resets_pair_witness :
    (readRobotPacket acceptAll initAllFailing []).1 = true ∧
    recvRobotPacketsSinceConnect
      ((readRobotPacket acceptAll initAllFailing []).2) = 0 ∧
    sentRobotPacketsSinceConnect
      ((readRobotPacket acceptAll initAllFailing []).2) = 0 :=
  C1_reconnect_resets_pair acceptAll initAllFailing [] rfl rfl

/-- Claim C2: the accessors receivedFMSPackets and receivedRadioPackets
do not return their own peer's counter: both C++ bodies return
m_receivedRobotPackets. After one readFMSPacket call from construction
(and no robot packets), the FMS counter is 1 yet receivedFMSPackets()
reports 0; likewise for the radio accessor. -/
theorem C2_accessor_bug_eval :
    receivedFMSPackets ((readFMSPacket baseVariant initAllFailing [0]).2) = 0 ∧
    ((readFMSPacket baseVariant initAllFailing [0]).2).m_receivedFmsPackets
      = 1 ∧
    receivedRadioPackets
      ((readRadioPacket baseVariant initAllFailing [0]).2) = 0 ∧
    ((readRadioPacket baseVariant initAllFailing [0]).2).m_receivedRadioPackets
      = 1 := by
  decide

/-- Claim C3 (as stated) is false on the code: a single readRobotPacket
call from construction (no generateRobotPacket before it) makes
recvRobotSinceConnect = 1 while sentRobotSinceConnect = 0, violating
recvRobotSinceConnect ≤ sentRobotSinceConnect. -/
theorem C3_counterexample :
    ¬ (recvRobotPacketsSinceConnect
         (runOps baseVariant initAllFailing [Op.readRobot []]) ≤
       sentRobotPacketsSinceConnect
         (runOps baseVariant initAllFailing [Op.readRobot []])) := by
  decide

/-- Claim C3 (amended): in every counter state reachable by a finite
sequence of generateRobotPacket, readRobotPacket and resetLossCounter
calls from construction, both since-connect counters are nonnegative;
the upper bound recvRobotSinceConnect ≤ sentRobotSinceConnect of the
original claim does not hold. -/
theorem C3_since_connect_nonneg (v : Variant) (f r rb : CommStatus)
    (ops : List RobotOp) :
    0 ≤ recvRobotPacketsSinceConnect
          (runOps v (mkProtocol f r rb) (ops.map RobotOp.toOp)) ∧
    0 ≤ sentRobotPacketsSinceConnect
          (runOps v (mkProtocol f r rb) (ops.map RobotOp.toOp)) := by
  have h := counterInv_runOps v (mkProtocol f r rb) (ops.map RobotOp.toOp)
    (counterInv_mk f r rb)
  exact ⟨h.2.2.2.2.2.2.1, h.2.2.2.2.2.2.2.1⟩

/-- Claim C4 (as stated) is false on the code: when the decoder accepts
the bytes while the robot peer is marked disconnected, the call does
not leave recvRobotSinceConnect incremented by one — the increment is
wiped by the subsequent reset, so the counter ends at 0. -/
theorem C4_counterexample :
    recvRobotPacketsSinceConnect
      ((readRobotPacket acceptAll initAllFailing []).2) ≠
    recvRobotPacketsSinceConnect initAllFailing + 1 := by
  decide

/-- Claim C4 (amended): every read call increments its own session
received counter unconditionally, returns exactly the decoder verdict,
sets the peer's comms status Working exactly on success and leaves all
comms statuses unchanged on failure; recvRobotSinceConnect ends one
higher except when the decoder accepts while the robot peer is marked
disconnected, in which case the reset leaves it at 0. -/
theorem C4_read_contract (v : Variant) (s : ProtocolState) (data : Bytes) :
    ((readFMSPacket v s data).2).m_receivedFmsPackets =
      s.m_receivedFmsPackets + 1 ∧
    ((readRadioPacket v s data).2).m_receivedRadioPackets =
      s.m_receivedRadioPackets + 1 ∧
    ((readRobotPacket v s data).2).m_receivedRobotPackets =
      s.m_receivedRobotPackets + 1 ∧
    (readFMSPacket v s data).1 = v.interpretFMSPacket data ∧
    (readRadioPacket v s data).1 = v.interpretRadioPacket data ∧
    (readRobotPacket v s data).1 = v.interpretRobotPacket data ∧
    ((readFMSPacket v s data).2).fmsCommStatus =
      (if v.interpretFMSPacket data then CommStatus.kCommsWorking
       else s.fmsCommStatus) ∧
    ((readFMSPacket v s data).2).radioCommStatus = s.radioCommStatus ∧
    ((readFMSPacket v s data).2).robotCommStatus = s.robotCommStatus ∧
    ((readRadioPacket v s data).2).radioCommStatus =
      (if v.interpretRadioPacket data then CommStatus.kCommsWorking
       else s.radioCommStatus) ∧
    ((readRadioPacket v s data).2).fmsCommStatus = s.fmsCommStatus ∧
    ((readRadioPacket v s data).2).robotCommStatus = s.robotCommStatus ∧
    ((readRobotPacket v s data).2).robotCommStatus =
      (if v.interpretRobotPacket data then CommStatus.kCommsWorking
       else s.robotCommStatus) ∧
    ((readRobotPacket v s data).2).fmsCommStatus = s.fmsCommStatus ∧
    ((readRobotPacket v s data).2).radioCommStatus = s.radioCommStatus ∧
    ((readRobotPacket v s data).2).m_recvRobotPacketsSinceConnect =
      (if v.interpretRobotPacket data && !(isConnectedToRobot s) then 0
       else s.m_recvRobotPacketsSinceConnect + 1) := by
  cases hf : v.interpretFMSPacket data <;>
  cases hr : v.interpretRadioPacket data <;>
  cases hb : v.interpretRobotPacket data <;>
  cases hc : s.robotCommStatus <;>
    simp [readFMSPacket, readRadioPacket, readRobotPacket, hf, hr, hb, hc,
      isConnectedToRobot, resetLossCounter]

/-- Claim C5: in every state reachable from construction by any finite
sequence of public calls, sentRobotSinceConnect ≤ sentRobot and
recvRobotSinceConnect ≤ recvRobot. -/
theorem C5_since_connect_bounded (v : Variant) (f r rb : CommStatus)
    (ops : List Op) :
    sentRobotPacketsSinceConnect (runOps v (mkProtocol f r rb) ops) ≤
      sentRobotPackets (runOps v (mkProtocol f r rb) ops) ∧
    recvRobotPacketsSinceConnect (runOps v (mkProtocol f r rb) ops) ≤
      receivedRobotPackets (runOps v (mkProtocol f r rb) ops) := by
  have h := counterInv_runOps v (mkProtocol f r rb) ops (counterInv_mk f r rb)
  exact ⟨h.2.2.2.2.2.2.2.2.1, h.2.2.2.2.2.2.2.2.2⟩

/-- Claim C6: N generate calls on a peer raise that peer's sent counter
by exactly N, N read calls raise that peer's received counter by
exactly N, and no public call ever decreases any of the six session
counters. -/
theorem C6_counting_and_monotone :
    (∀ (v : Variant) (s : ProtocolState) (n : Nat),
       sentFMSPackets (runOps v s (List.replicate n Op.genFMS)) =
         sentFMSPackets s + n) ∧
    (∀ (v : Variant) (s : ProtocolState) (n : Nat),
       sentRadioPackets (runOps v s (List.replicate n Op.genRadio)) =
         sentRadioPackets s + n) ∧
    (∀ (v : Variant) (s : ProtocolState) (n : Nat),
       sentRobotPackets (runOps v s (List.replicate n Op.genRobot)) =
         sentRobotPackets s + n) ∧
    (∀ (v : Variant) (s : ProtocolState) (ds : List Bytes),
       (runOps v s (ds.map Op.readFMS)).m_receivedFmsPackets =
         s.m_receivedFmsPackets + ds.length) ∧
    (∀ (v : Variant) (s : ProtocolState) (ds : List Bytes),
       (runOps v s (ds.map Op.readRadio)).m_receivedRadioPackets =
         s.m_receivedRadioPackets + ds.length) ∧
    (∀ (v : Variant) (s : ProtocolState) (ds : List Bytes),
       receivedRobotPackets (runOps v s (ds.map Op.readRobot)) =
         receivedRobotPackets s + ds.length) ∧
    (∀ (v : Variant) (s : ProtocolState) (op : Op),
       sentFMSPackets s ≤ sentFMSPackets (applyOp v s op) ∧
       sentRadioPackets s ≤ sentRadioPackets (applyOp v s op) ∧
       sentRobotPackets s ≤ sentRobotPackets (applyOp v s op) ∧
       (applyOp v s op).m_receivedFmsPackets ≥ s.m_receivedFmsPackets ∧
       (applyOp v s op).m_receivedRadioPackets ≥ s.m_receivedRadioPackets ∧
       receivedRobotPackets s ≤ receivedRobotPackets (applyOp v s op)) :=
  ⟨fun v s n => runOps_replicate_genFMS v n s,
   fun v s n => runOps_replicate_genRadio v n s,
   fun v s n => runOps_replicate_genRobot v n s,
   fun v s ds => runOps_map_readFMS v ds s,
   fun v s ds => runOps_map_readRadio v ds s,
   fun v s ds => runOps_map_readRobot v ds s,
   fun v s op => sessionCounters_mono v s op⟩

/-- Claim C7: for a variant that overrides nothing, all FMS/radio/robot
input and output ports equal the disabled-port sentinel, all three send
frequencies are 1 packet per second, all three socket types are UDP,
the FMS address is the empty string, and all three generate operations
return an empty byte sequence. -/
theorem C7_unconfigured_defaults :
    fmsInputPort = DS_DISABLED_PORT ∧ fmsOutputPort = DS_DISABLED_PORT ∧
    radioInputPort = DS_DISABLED_PORT ∧ radioOutputPort = DS_DISABLED_PORT ∧
    robotInputPort = DS_DISABLED_PORT ∧ robotOutputPort = DS_DISABLED_PORT ∧
    fmsFrequency = 1 ∧ radioFrequency = 1 ∧ robotFrequency = 1 ∧
    fmsSocketType = SocketType.kSocketTypeUDP ∧
    radioSocketType = SocketType.kSocketTypeUDP ∧
    robotSocketType = SocketType.kSocketTypeUDP ∧
    fmsAddress = "" ∧
    (∀ s : ProtocolState, (generateFMSPacket baseVariant s).1 = []) ∧
    (∀ s : ProtocolState, (generateRadioPacket baseVariant s).1 = []) ∧
    (∀ s : ProtocolState, (generateRobotPacket baseVariant s).1 = []) :=
  ⟨rfl, rfl, rfl, rfl, rfl, rfl, rfl, rfl, rfl, rfl, rfl, rfl, rfl,
   fun _ => rfl, fun _ => rfl, fun _ => rfl⟩

/-- Claim C8: each generate call touches only its own sent counters:
generateFMSPacket adds one to sentFMS, generateRadioPacket to
sentRadio, generateRobotPacket to sentRobot and sentRobotSinceConnect,
and every other counter and every comms status is left unchanged. -/
theorem C8_generate_frame (v : Variant) (s : ProtocolState) :
    (((generateFMSPacket v s).2).m_sentFmsPackets = s.m_sentFmsPackets + 1 ∧
     ((generateFMSPacket v s).2).m_sentRadioPackets = s.m_sentRadioPackets ∧
     ((generateFMSPacket v s).2).m_sentRobotPackets = s.m_sentRobotPackets ∧
     ((generateFMSPacket v s).2).m_receivedFmsPackets =
       s.m_receivedFmsPackets ∧
     ((generateFMSPacket v s).2).m_receivedRadioPackets =
       s.m_receivedRadioPackets ∧
     ((generateFMSPacket v s).2).m_receivedRobotPackets =
       s.m_receivedRobotPackets ∧
     ((generateFMSPacket v s).2).m_recvRobotPacketsSinceConnect =
       s.m_recvRobotPacketsSinceConnect ∧
     ((generateFMSPacket v s).2).m_sentRobotPacketsSinceConnect =
       s.m_sentRobotPacketsSinceConnect ∧
     ((generateFMSPacket v s).2).fmsCommStatus = s.fmsCommStatus ∧
     ((generateFMSPacket v s).2).radioCommStatus = s.radioCommStatus ∧
     ((generateFMSPacket v s).2).robotCommStatus = s.robotCommStatus) ∧
    (((generateRadioPacket v s).2).m_sentRadioPackets =
       s.m_sentRadioPackets + 1 ∧
     ((generateRadioPacket v s).2).m_sentFmsPackets = s.m_sentFmsPackets ∧
     ((generateRadioPacket v s).2).m_sentRobotPackets = s.m_sentRobotPackets ∧
     ((generateRadioPacket v s).2).m_receivedFmsPackets =
       s.m_receivedFmsPackets ∧
     ((generateRadioPacket v s).2).m_receivedRadioPackets =
       s.m_receivedRadioPackets ∧
     ((generateRadioPacket v s).2).m_receivedRobotPackets =
       s.m_receivedRobotPackets ∧
     ((generateRadioPacket v s).2).m_recvRobotPacketsSinceConnect =
       s.m_recvRobotPacketsSinceConnect ∧
     ((generateRadioPacket v s).2).m_sentRobotPacketsSinceConnect =
       s.m_sentRobotPacketsSinceConnect ∧
     ((generateRadioPacket v s).2).fmsCommStatus = s.fmsCommStatus ∧
     ((generateRadioPacket v s).2).radioCommStatus = s.radioCommStatus ∧
     ((generateRadioPacket v s).2).robotCommStatus = s.robotCommStatus) ∧
    (((generateRobotPacket v s).2).m_sentRobotPackets =
       s.m_sentRobotPackets + 1 ∧
     ((generateRobotPacket v s).2).m_sentRobotPacketsSinceConnect =
       s.m_sentRobotPacketsSinceConnect + 1 ∧
     ((generateRobotPacket v s).2).m_sentFmsPackets = s.m_sentFmsPackets ∧
     ((generateRobotPacket v s).2).m_sentRadioPackets = s.m_sentRadioPackets ∧
     ((generateRobotPacket v s).2).m_receivedFmsPackets =
       s.m_receivedFmsPackets ∧
     ((generateRobotPacket v s).2).m_receivedRadioPackets =
       s.m_receivedRadioPackets ∧
     ((generateRobotPacket v s).2).m_receivedRobotPackets =
       s.m_receivedRobotPackets ∧
     ((generateRobotPacket v s).2).m_recvRobotPacketsSinceConnect =
       s.m_recvRobotPacketsSinceConnect ∧
     ((generateRobotPacket v s).2).fmsCommStatus = s.fmsCommStatus ∧
     ((generateRobotPacket v s).2).radioCommStatus = s.radioCommStatus ∧
     ((generateRobotPacket v s).2).robotCommStatus = s.robotCommStatus) := by
  simp [generateFMSPacket, generateRadioPacket, generateRobotPacket]

/-- Claim C9: with the base-class decoder defaults every read call
returns false on every input, so no comms status is ever set to
Working (all three statuses are untouched) and the automatic
since-connect reset never fires: recvRobotSinceConnect still grows by
one and sentRobotSinceConnect is untouched. -/
theorem C9_base_decoders_reject (s : ProtocolState) (data : Bytes) :
    (readFMSPacket baseVariant s data).1 = false ∧
    (readRadioPacket baseVariant s data).1 = false ∧
    (readRobotPacket baseVariant s data).1 = false ∧
    ((readFMSPacket baseVariant s data).2).fmsCommStatus = s.fmsCommStatus ∧
    ((readRadioPacket baseVariant s data).2).radioCommStatus =
      s.radioCommStatus ∧
    ((readRobotPacket baseVariant s data).2).robotCommStatus =
      s.robotCommStatus ∧
    ((readRobotPacket baseVariant s data).2).m_recvRobotPacketsSinceConnect =
      s.m_recvRobotPacketsSinceConnect + 1 ∧
    ((readRobotPacket baseVariant s data).2).m_sentRobotPacketsSinceConnect =
      s.m_sentRobotPacketsSinceConnect := by
  simp [readFMSPacket, readRadioPacket, readRobotPacket, baseVariant]

/-- Claim C10: resetLossCounter is total and idempotent: it zeroes both
since-connect counters, leaves the six session counters and every
comms status unchanged, and applying it twice equals applying it
once. -/
theorem C10_resetLossCounter_idempotent (s : ProtocolState) :
    (resetLossCounter s).m_recvRobotPacketsSinceConnect = 0 ∧
    (resetLossCounter s).m_sentRobotPacketsSinceConnect = 0 ∧
    (resetLossCounter s).m_sentFmsPackets = s.m_sentFmsPackets ∧
    (resetLossCounter s).m_sentRadioPackets = s.m_sentRadioPackets ∧
    (resetLossCounter s).m_sentRobotPackets = s.m_sentRobotPackets ∧
    (resetLossCounter s).m_receivedFmsPackets = s.m_receivedFmsPackets ∧
    (resetLossCounter s).m_receivedRadioPackets = s.m_receivedRadioPackets ∧
    (resetLossCounter s).m_receivedRobotPackets = s.m_receivedRobotPackets ∧
    (resetLossCounter s).fmsCommStatus = s.fmsCommStatus ∧
    (resetLossCounter s).radioCommStatus = s.radioCommStatus ∧
    (resetLossCounter s).robotCommStatus = s.robotCommStatus ∧
    resetLossCounter (resetLossCounter s) = resetLossCounter s := by
  simp [resetLossCounter]

end LibDS
